import Mathlib

/-!
# Verification of the music-playlist backend (`src/backend/server.js`)

Shallow embedding of the Express + MongoDB/GridFS backend.  The server keeps
two pieces of shared state: the GridFS chunk store (the set of stored binary
objects, here identified by numeric ids) and the `Song` catalog collection
(a list in insertion order).  Each HTTP route is embedded as a pure function
from a request and the current state to an HTTP status code and the new state.

JavaScript-specific behaviours are modelled explicitly:
* `jsTruthy` — truthiness of a string (`!s` is true exactly for the empty
  string; note `"0"` is truthy in JS);
* `parseIntJS` — `parseInt` on a decimal string: skip leading spaces, optional
  sign, longest digit prefix, `none` (NaN) when no digits (the hexadecimal
  `0x` form is not exercised by any input considered here);
* `RegExp(search, 'i')` — modelled for patterns over literal characters and
  the `.` wildcard (see `patMatchAt`); theorems about search strings that
  contain other regex metacharacters are restricted accordingly.
-/

/-- One row of the `Song` collection (the mongoose `Song` model,
`server.js` lines 63–71).  `id` is the MongoDB-assigned `_id`, `fileId` the
GridFS object reference, `createdAt` the creation timestamp. -/
structure Song where
  id : String
  title : String
  artist : String
  songcode : String
  album : String
  duration : Int
  fileId : Option Nat
  createdAt : Nat
deriving DecidableEq, Repr

/-- Server-side shared state: the GridFS chunk store (list of stored object
ids, in storage order) and the `Song` catalog (insertion order). -/
structure ServerState where
  store : List Nat
  catalog : List Song
deriving DecidableEq, Repr

/-- An upload request as it reaches the server: whether a file field is
present, its declared MIME type, the GridFS id the storage engine would
assign to it, and the four form fields (absent fields are modelled as `""`,
which JS truthiness treats identically to `undefined`). -/
structure UploadReq where
  hasFile : Bool
  mimetype : String
  fileId : Nat
  title : String
  artist : String
  album : String
  duration : String
deriving DecidableEq, Repr

/-- JS truthiness of a string: `!s` is true iff `s` is empty.  In particular
`"0"` and `"-1"` are truthy. -/
def jsTruthy (s : String) : Bool := s ≠ ""

/-- The multer `fileFilter` (`server.js` lines 53–59): accept exactly the
files whose declared MIME type starts with `audio/`. -/
def fileFilterAccepts (mimetype : String) : Bool := "audio/".data.isPrefixOf mimetype.data

/-- Value of a list of decimal digit characters. -/
def digitsVal (cs : List Char) : Nat := cs.foldl (fun a c => a * 10 + (c.toNat - 48)) 0

/-- JS `parseInt` on a decimal string: skip leading spaces, optional `+`/`-`
sign, then the longest prefix of decimal digits; `none` models `NaN` (no
digits found). -/
def parseIntJS (s : String) : Option Int :=
  let cs := s.data.dropWhile (fun c => c = ' ')
  let signAndRest : Bool × List Char :=
    match cs with
    | '-' :: r => (true, r)
    | '+' :: r => (false, r)
    | r => (false, r)
  let ds := signAndRest.2.takeWhile Char.isDigit
  if ds.isEmpty then none
  else if signAndRest.1 then some (-(digitsVal ds : Int)) else some (digitsVal ds : Int)

/-- The upload route `POST /api/upload` (`server.js` lines 76–111), including
the multer middleware in front of it.  Besides the request, the model takes
the short code `shortid.generate()` would produce (`genCode`), the `_id`
MongoDB would assign to the new row (`newId`) and the current time (`now`).

Behaviour, in the order the server performs it:
1. the multer `fileFilter` rejects a non-audio file with a plain `Error`,
   which skips the handler and reaches the generic error middleware
   (`server.js` lines 216–219) — status 500, nothing stored;
2. an accepted file is persisted to GridFS by the storage engine *before*
   the handler runs;
3. the handler rejects a missing file (400), then missing/empty `title`,
   `artist` or `duration` via JS truthiness (400);
4. `song.save()` fails with a `CastError` when `parseInt(duration)` is NaN
   (caught, `error.code ≠ 11000`, status 500), or with duplicate-key error
   11000 when `genCode` collides with an existing `songcode` (status 400);
5. otherwise the row is appended (album defaulted to `"Unknown Album"` when
   falsy) and the response is 200.

No branch ever removes the object persisted in step 2. -/
def processUpload (st : ServerState) (req : UploadReq) (genCode newId : String)
    (now : Nat) : Nat × ServerState :=
  if req.hasFile && !fileFilterAccepts req.mimetype then
    (500, st)
  else if !req.hasFile then
    (400, st)
  else
    let st1 : ServerState := { st with store := st.store ++ [req.fileId] }
    if !(jsTruthy req.title && jsTruthy req.artist && jsTruthy req.duration) then
      (400, st1)
    else
      match parseIntJS req.duration with
      | none => (500, st1)
      | some d =>
        if st1.catalog.any (fun s => s.songcode == genCode) then
          (400, st1)
        else
          (200, { st1 with catalog := st1.catalog ++
            [{ id := newId, title := req.title, artist := req.artist,
               songcode := genCode,
               album := if jsTruthy req.album then req.album else "Unknown Album",
               duration := d, fileId := some req.fileId, createdAt := now }] })

example :
    processUpload ⟨[], []⟩
      ⟨true, "audio/mpeg", 7, "T", "A", "", "180"⟩ "c1" "id1" 5 =
      (200, ⟨[7], [⟨"id1", "T", "A", "c1", "Unknown Album", 180, some 7, 5⟩]⟩) := by
  decide

/-- Case-insensitive character comparison, modelling the `'i'` flag of
`new RegExp(search, 'i')`. -/
def lowerEq (a b : Char) : Bool := a.toLower == b.toLower

/-- JS `RegExp` matching at a fixed position for the modelled pattern subset
(literal characters plus the `.` wildcard), case-insensitively:
`patMatchAt pat s` holds when `pat` matches a prefix of `s`. -/
def patMatchAt : List Char → List Char → Bool
  | [], _ => true
  | _ :: _, [] => false
  | p :: ps, c :: cs => (p == '.' || lowerEq p c) && patMatchAt ps cs

/-- Unanchored matching: the pattern matches starting at some position. -/
def patMatchIn (pat : List Char) : List Char → Bool
  | [] => patMatchAt pat []
  | c :: cs => patMatchAt pat (c :: cs) || patMatchIn pat cs

/-- `new RegExp(pattern, 'i').test(field)` for the modelled subset. -/
def regexTestCI (pattern field : String) : Bool := patMatchIn pattern.data field.data

/-- Characters with a special meaning in JS regular expressions. -/
def isRegexMeta (c : Char) : Bool :=
  c == '.' || c == '^' || c == '$' || c == '*' || c == '+' || c == '?' ||
  c == '(' || c == ')' || c == '[' || c == ']' || c == '\x7b' || c == '\x7d' ||
  c == '|' || c == '\\'

/-- Whether a search string contains any regex metacharacter. -/
def hasRegexMeta (s : String) : Bool := s.data.any isRegexMeta

/-- Case-insensitive prefix test on character lists. -/
def ciPrefix : List Char → List Char → Bool
  | [], _ => true
  | _ :: _, [] => false
  | n :: ns, c :: cs => lowerEq n c && ciPrefix ns cs

/-- Case-insensitive substring occurrence on character lists. -/
def ciSubstrL (needle : List Char) : List Char → Bool
  | [] => ciPrefix needle []
  | c :: cs => ciPrefix needle (c :: cs) || ciSubstrL needle cs

/-- The spec-side predicate, written from the spec's words: `needle` occurs
as a case-insensitive substring of `hay`. -/
def ciSubstr (needle hay : String) : Bool := ciSubstrL needle.data hay.data

/-- The `$or` filter built by the songs route (`server.js` lines 119–125):
the search pattern is tested against title, artist and album. -/
def songMatches (q : String) (s : Song) : Bool :=
  regexTestCI q s.title || regexTestCI q s.artist || regexTestCI q s.album

/-- The sort key relation of `.sort` on `createdAt` descending: `a` comes no
later than `b` in the output when `b.createdAt ≤ a.createdAt`. -/
def newerFirst (a b : Song) : Prop := b.createdAt ≤ a.createdAt

instance : DecidableRel newerFirst := fun a b => Nat.decLe b.createdAt a.createdAt

instance : IsTotal Song newerFirst := ⟨fun a b => Nat.le_total b.createdAt a.createdAt⟩

instance : IsTrans Song newerFirst := ⟨fun _ _ _ h1 h2 => Nat.le_trans h2 h1⟩

/-- `GET /api/songs` (`server.js` lines 114–133): the optional `search` query
string (absent = `none`); a falsy (empty) search applies no filter, otherwise
the `$or` regex filter over title, artist and album; the result is sorted by
`createdAt` descending.

MongoDB's `.sort` guarantees only a `createdAt`-descending permutation and
leaves the relative order of documents with equal timestamps unspecified —
that contract is `listSongsRel` below.  `listSongs` fixes one admissible
resolution of the tie order (a stable insertion sort over the
insertion-ordered collection) and is used only in statements that hold under
every resolution: membership in the result, and the identity of the
empty-search and no-search code paths. -/
def listSongs (catalog : List Song) (search : Option String) : List Song :=
  let base :=
    match search with
    | some q => if jsTruthy q then catalog.filter (songMatches q) else catalog
    | none => catalog
  List.insertionSort newerFirst base

/-- What `.sort` on `createdAt` descending guarantees about its result:
exactly the input documents (a permutation), in `createdAt`-descending
order.  The order of documents with equal timestamps is NOT specified, so
this is a relation between input and result, not a function. -/
def mongoSortedDesc (input result : List Song) : Prop :=
  result.Perm input ∧ result.Pairwise newerFirst

instance (input result : List Song) : Decidable (mongoSortedDesc input result) := by
  unfold mongoSortedDesc; infer_instance

/-- Relational contract of `GET /api/songs`: the result is some
`createdAt`-descending permutation of the (optionally filtered) catalog.
Every admissible behaviour of the route — in particular `listSongs` — lies
in this relation; nothing beyond it is guaranteed by the source. -/
def listSongsRel (catalog : List Song) (search : Option String)
    (result : List Song) : Prop :=
  mongoSortedDesc
    (match search with
     | some q => if jsTruthy q then catalog.filter (songMatches q) else catalog
     | none => catalog) result

instance (catalog : List Song) (search : Option String) (result : List Song) :
    Decidable (listSongsRel catalog search result) := by
  unfold listSongsRel; infer_instance

/-- Hexadecimal digit test. -/
def isHexChar (c : Char) : Bool :=
  c.isDigit || ('a' ≤ c && c ≤ 'f') || ('A' ≤ c && c ≤ 'F')

/-- `ObjectId.isValid` from the mongodb driver: a 24-character hexadecimal
string, or any 12-character string (the 12-byte binary form). -/
def isValidObjectId (s : String) : Bool :=
  (s.data.length == 24 && s.data.all isHexChar) || s.data.length == 12

/-- `GET /api/songs/:songId/audio`, up to opening the download stream
(`server.js` lines 136–155): invalid id → 400; no song with that id, or a
song without a `fileId` → 404, before any bytes are sent; otherwise status
200 with a download stream opened on the song's object id (`some fid`). -/
def streamAudio (st : ServerState) (songId : String) : Nat × Option Nat :=
  if !isValidObjectId songId then (400, none)
  else
    match st.catalog.find? (fun s => s.id == songId) with
    | none => (404, none)
    | some song =>
      match song.fileId with
      | none => (404, none)
      | some fid => (200, some fid)

/-- The download-stream error handler (`server.js` lines 157–162): when the
read fails, a 404 is written only if response headers have not been sent;
once headers are out, no status code is written at all. -/
def streamErrorStatus (headersSent : Bool) : Option Nat :=
  if headersSent then none else some 404

/-- Observable outcome of `downloadStream.pipe(res)` (`server.js` line 164)
when the underlying read fails after `k` chunks of the object's `data` have
been produced: the bytes forwarded before the failure, paired with the status
code written by the error handler — headers count as sent exactly when at
least one chunk was already forwarded. -/
def runStreamFailure (data : List Nat) (k : Nat) : List Nat × Option Nat :=
  let sent := data.take k
  (sent, streamErrorStatus (!sent.isEmpty))

/-- `DELETE /api/songs/:songId` (`server.js` lines 175–204): invalid id →
400; unknown id → 404; otherwise the GridFS delete of the song's object runs
inside try/catch — a storage-side failure (`storageFails`) is only logged —
then `findByIdAndDelete` removes the catalog row and the response is 200. -/
def deleteSong (st : ServerState) (songId : String) (storageFails : Bool) :
    Nat × ServerState :=
  if !isValidObjectId songId then (400, st)
  else
    match st.catalog.find? (fun s => s.id == songId) with
    | none => (404, st)
    | some song =>
      let st1 :=
        match song.fileId with
        | some fid =>
          if storageFails then st
          else { st with store := st.store.filter (fun o => o != fid) }
        | none => st
      (200, { st1 with catalog := st1.catalog.filter (fun s => s.id != songId) })

/-! ## Helper lemmas about the search filter and the sort -/

theorem patMatchAt_eq_ciPrefix (pat : List Char)
    (hp : ∀ c ∈ pat, isRegexMeta c = false) :
    ∀ s, patMatchAt pat s = ciPrefix pat s := by
  induction pat with
  | nil => intro s; cases s <;> rfl
  | cons p ps ih =>
    intro s
    have hdot : (p == '.') = false := by
      rcases Bool.eq_false_or_eq_true (p == '.') with h | h
      · have hpd : p = '.' := by simpa using h
        have hmeta := hp p (List.mem_cons_self p ps)
        rw [hpd] at hmeta
        simp [isRegexMeta] at hmeta
      · exact h
    cases s with
    | nil => rfl
    | cons c cs =>
      simp [patMatchAt, ciPrefix, hdot,
        ih (fun c hc => hp c (List.mem_cons_of_mem _ hc)) cs]

theorem patMatchIn_eq_ciSubstrL (pat : List Char)
    (hp : ∀ c ∈ pat, isRegexMeta c = false) :
    ∀ s, patMatchIn pat s = ciSubstrL pat s := by
  intro s
  induction s with
  | nil => simp [patMatchIn, ciSubstrL, patMatchAt_eq_ciPrefix pat hp]
  | cons c cs ih =>
    simp [patMatchIn, ciSubstrL, patMatchAt_eq_ciPrefix pat hp, ih]

theorem regexTestCI_eq_ciSubstr (q field : String) (hq : hasRegexMeta q = false) :
    regexTestCI q field = ciSubstr q field := by
  have hp : ∀ c ∈ q.data, isRegexMeta c = false := by
    simpa [hasRegexMeta] using hq
  exact patMatchIn_eq_ciSubstrL q.data hp field.data

theorem songMatches_eq_ciSubstr (q : String) (s : Song) (hq : hasRegexMeta q = false) :
    songMatches q s =
      (ciSubstr q s.title || ciSubstr q s.artist || ciSubstr q s.album) := by
  simp [songMatches, regexTestCI_eq_ciSubstr _ _ hq]

theorem sorted_distinct_unique :
    ∀ l₁ l₂ : List Song, l₁.Perm l₂ → l₁.Pairwise newerFirst →
      l₂.Pairwise newerFirst →
      l₂.Pairwise (fun a b => a.createdAt ≠ b.createdAt) → l₁ = l₂ := by
  intro l₁
  induction l₁ with
  | nil =>
    intro l₂ hp _ _ _
    exact (hp.symm.eq_nil).symm
  | cons a t₁ ih =>
    intro l₂ hp hs₁ hs₂ hd₂
    cases l₂ with
    | nil => exact absurd hp.eq_nil (by simp)
    | cons b t₂ =>
      by_cases hab : a = b
      · subst hab
        have ht : t₁.Perm t₂ := hp.cons_inv
        rw [ih t₂ ht (List.pairwise_cons.mp hs₁).2 (List.pairwise_cons.mp hs₂).2
          (List.pairwise_cons.mp hd₂).2]
      · exfalso
        have hbmem : b ∈ t₁ := by
          have : b ∈ a :: t₁ := hp.symm.subset (List.mem_cons_self b t₂)
          exact (List.mem_cons.mp this).resolve_left fun h => hab h.symm
        have hamem : a ∈ t₂ := by
          have : a ∈ b :: t₂ := hp.subset (List.mem_cons_self a t₁)
          exact (List.mem_cons.mp this).resolve_left hab
        have h1 : newerFirst a b := (List.pairwise_cons.mp hs₁).1 b hbmem
        have h2 : newerFirst b a := (List.pairwise_cons.mp hs₂).1 a hamem
        have hne : b.createdAt ≠ a.createdAt := (List.pairwise_cons.mp hd₂).1 a hamem
        exact hne (Nat.le_antisymm h1 h2)

theorem sorted_unique_three (A B C : Song) (res : List Song)
    (h1 : A.createdAt < B.createdAt) (h2 : B.createdAt < C.createdAt)
    (hrel : listSongsRel [A, B, C] none res) : res = [C, B, A] := by
  obtain ⟨hperm, hsort⟩ : res.Perm [A, B, C] ∧ res.Pairwise newerFirst := by
    simpa [listSongsRel, mongoSortedDesc] using hrel
  apply sorted_distinct_unique res [C, B, A] ?_ hsort ?_ ?_
  · refine hperm.trans ?_
    simpa using (List.reverse_perm [A, B, C]).symm
  · simp [List.pairwise_cons, newerFirst]
    omega
  · simp [List.pairwise_cons]
    omega

/-! ## Claim theorems -/

/-- C10: a list request whose `search` parameter is the empty string is
falsy in `if (search)`, so no filter is applied and the request behaves
exactly like one with no search parameter. -/
theorem empty_search_equals_no_search (catalog : List Song) :
    listSongs catalog (some "") = listSongs catalog none := by
  simp [listSongs, jsTruthy]

/-- C4 (amended): for every non-empty search string that contains no regex
metacharacter, the list operation returns exactly the songs in which the
string occurs as a case-insensitive substring of the title, or of the artist,
or of the album.  (For strings with metacharacters the pattern is interpreted
as a regular expression, so the substring reading fails — see the
counterexample.) -/
theorem search_substring_over_fields (catalog : List Song) (q : String) (s : Song)
    (hq : q ≠ "") (hm : hasRegexMeta q = false) :
    s ∈ listSongs catalog (some q) ↔
      s ∈ catalog ∧
        (ciSubstr q s.title = true ∨ ciSubstr q s.artist = true ∨
          ciSubstr q s.album = true) := by
  have hq' : jsTruthy q = true := by simp [jsTruthy, hq]
  simp only [listSongs, hq', if_true]
  rw [List.mem_insertionSort, List.mem_filter, songMatches_eq_ciSubstr q s hm]
  simp [or_assoc]

/-- Witness for C4: in the spec's own example catalog, searching "blue"
returns the song whose artist is "Blue Note Quartet". -/
theorem search_substring_over_fields_witness :
    (⟨"id2", "Sun", "Blue Note Quartet", "c2", "Unknown Album", 200, some 2, 2⟩ : Song) ∈
      listSongs
        [⟨"id1", "Blue Moon", "Miles", "c1", "Unknown Album", 200, some 1, 1⟩,
          ⟨"id2", "Sun", "Blue Note Quartet", "c2", "Unknown Album", 200, some 2, 2⟩]
        (some "blue") :=
  (search_substring_over_fields
      [⟨"id1", "Blue Moon", "Miles", "c1", "Unknown Album", 200, some 1, 1⟩,
        ⟨"id2", "Sun", "Blue Note Quartet", "c2", "Unknown Album", 200, some 2, 2⟩]
      "blue"
      ⟨"id2", "Sun", "Blue Note Quartet", "c2", "Unknown Album", 200, some 2, 2⟩
      (by decide) (by decide)).mpr (by decide)

/-- C4 counterexample: the search string "a.c" (which contains the regex
metacharacter `.`) returns the song titled "abc", although "a.c" is not a
case-insensitive substring of its title, artist or album — the search is an
unescaped regular-expression match, not a substring match, so the claim fails
for search strings with regex-special characters. -/
theorem search_metachar_counterexample :
    (⟨"id1", "abc", "x", "c1", "y", 100, some 1, 0⟩ : Song) ∈
        listSongs [⟨"id1", "abc", "x", "c1", "y", 100, some 1, 0⟩] (some "a.c") ∧
      ciSubstr "a.c" "abc" = false ∧ ciSubstr "a.c" "x" = false ∧
      ciSubstr "a.c" "y" = false := by
  decide

/-- C5 (amended): every result the list operation may return is a
permutation of the catalog sorted by creation timestamp descending (most
recent first); the relative order of songs with equal timestamps is left
unspecified by the database sort, so no insertion-order tie-break is
guaranteed; for three songs with strictly increasing timestamps the
descending order determines the result uniquely as [C, B, A]. -/
theorem list_songs_ordering_rel (catalog result : List Song)
    (h : listSongsRel catalog none result) :
    result.Perm catalog ∧ result.Pairwise newerFirst ∧
    (∀ A B C : Song, ∀ res : List Song,
      A.createdAt < B.createdAt → B.createdAt < C.createdAt →
      listSongsRel [A, B, C] none res → res = [C, B, A]) := by
  have h' : result.Perm catalog ∧ result.Pairwise newerFirst := by
    simpa [listSongsRel, mongoSortedDesc] using h
  exact ⟨h'.1, h'.2, fun A B C res h1 h2 hrel =>
    sorted_unique_three A B C res h1 h2 hrel⟩

/-- Witness for C5 (amended): a concrete admissible result for a
two-song catalog with timestamps 1 and 5 is their descending permutation. -/
theorem list_songs_ordering_rel_witness :
    ([⟨"y", "tY", "xY", "cy", "", 1, none, 5⟩,
        ⟨"x", "tX", "xX", "cx", "", 1, none, 1⟩] : List Song).Perm
      [⟨"x", "tX", "xX", "cx", "", 1, none, 1⟩,
        ⟨"y", "tY", "xY", "cy", "", 1, none, 5⟩] :=
  (list_songs_ordering_rel
      [⟨"x", "tX", "xX", "cx", "", 1, none, 1⟩,
        ⟨"y", "tY", "xY", "cy", "", 1, none, 5⟩]
      [⟨"y", "tY", "xY", "cy", "", 1, none, 5⟩,
        ⟨"x", "tX", "xX", "cx", "", 1, none, 1⟩]
      (by decide)).1

/-- C5 counterexample: the database sort contract guarantees only a
`createdAt`-descending permutation.  For two songs inserted s1 then s2 with
equal timestamps, the result [s2, s1] — the reverse of insertion order — is
an admissible behaviour of the route, so the claimed insertion-order
tie-break is not a guarantee the code provides. -/
theorem tie_order_not_guaranteed :
    listSongsRel
        [⟨"s1", "t1", "a1", "c1", "", 1, none, 4⟩,
          ⟨"s2", "t2", "a2", "c2", "", 1, none, 4⟩] none
        [⟨"s2", "t2", "a2", "c2", "", 1, none, 4⟩,
          ⟨"s1", "t1", "a1", "c1", "", 1, none, 4⟩] ∧
      ([⟨"s2", "t2", "a2", "c2", "", 1, none, 4⟩,
          ⟨"s1", "t1", "a1", "c1", "", 1, none, 4⟩] : List Song) ≠
        [⟨"s1", "t1", "a1", "c1", "", 1, none, 4⟩,
          ⟨"s2", "t2", "a2", "c2", "", 1, none, 4⟩] := by
  decide

/-- C8: a stream request with an id that is not a valid ObjectId format gets
status 400; a valid id that resolves to no song, or to a song without a
`fileId` reference, gets status 404 — and in every one of these cases no
download stream is opened (`none`), so no bytes have been sent. -/
theorem stream_pre_checks (st : ServerState) (songId : String) :
    (isValidObjectId songId = false → streamAudio st songId = (400, none)) ∧
    (isValidObjectId songId = true →
      st.catalog.find? (fun s => s.id == songId) = none →
      streamAudio st songId = (404, none)) ∧
    (∀ song : Song, isValidObjectId songId = true →
      st.catalog.find? (fun s => s.id == songId) = some song →
      song.fileId = none → streamAudio st songId = (404, none)) := by
  refine ⟨fun h => ?_, fun hv h => ?_, fun song hv h hf => ?_⟩
  · simp [streamAudio, h]
  · simp [streamAudio, hv, h]
  · simp [streamAudio, hv, h, hf]

/-- Witness for C8: the two-character id "zz" is not a valid ObjectId, so the
concrete stream request is answered 400 with no stream opened. -/
theorem stream_pre_checks_witness :
    streamAudio ⟨[], []⟩ "zz" = (400, none) :=
  (stream_pre_checks ⟨[], []⟩ "zz").1 (by decide)

/-- C9: when the download-stream read fails after `k` chunks, the bytes
forwarded are exactly the first `k` chunks of the object's data; if nothing
had been forwarded yet (headers unsent) the error handler writes status 404,
and once any bytes were forwarded no status code is written at all — the
failure only shows as the early end of the output. -/
theorem stream_error_status_discipline (data : List Nat) (k : Nat) :
    (runStreamFailure data k).1 = data.take k ∧
    ((runStreamFailure data k).1 = [] → (runStreamFailure data k).2 = some 404) ∧
    ((runStreamFailure data k).1 ≠ [] → (runStreamFailure data k).2 = none) := by
  refine ⟨rfl, fun h => ?_, fun h => ?_⟩
  · simp only [runStreamFailure] at h ⊢
    simp [h, streamErrorStatus]
  · simp only [runStreamFailure] at h ⊢
    cases hc : data.take k with
    | nil => rw [hc] at h; simp at h
    | cons a l => simp [hc, streamErrorStatus]

/-- Witness for C9: a read failing after the first of two chunks has been
forwarded writes no status code. -/
theorem stream_error_status_discipline_witness :
    (runStreamFailure [10, 20] 1).2 = none :=
  (stream_error_status_discipline [10, 20] 1).2.2 (by decide)

/-- C6: deleting an existing song responds 200 and removes its catalog row
whether or not the GridFS delete of its object fails — the storage error is
caught and only logged, never surfaced. -/
theorem delete_song_storage_failure_nonfatal
    (st : ServerState) (songId : String) (fails : Bool) (song : Song)
    (hv : isValidObjectId songId = true)
    (hfind : st.catalog.find? (fun s => s.id == songId) = some song) :
    (deleteSong st songId fails).1 = 200 ∧
    (deleteSong st songId fails).2.catalog =
      st.catalog.filter (fun s => s.id != songId) := by
  unfold deleteSong
  cases hfi : song.fileId <;> cases fails <;> simp [hv, hfind, hfi]

/-- Witness for C6: deleting a concrete song whose GridFS delete fails
(e.g. the object was already removed) still responds 200. -/
theorem delete_song_storage_failure_nonfatal_witness :
    (deleteSong
        ⟨[5], [⟨"aaaaaaaaaaaaaaaaaaaaaaaa", "T", "A", "c", "al", 10, some 5, 0⟩]⟩
        "aaaaaaaaaaaaaaaaaaaaaaaa" true).1 = 200 :=
  (delete_song_storage_failure_nonfatal
      ⟨[5], [⟨"aaaaaaaaaaaaaaaaaaaaaaaa", "T", "A", "c", "al", 10, some 5, 0⟩]⟩
      "aaaaaaaaaaaaaaaaaaaaaaaa" true
      ⟨"aaaaaaaaaaaaaaaaaaaaaaaa", "T", "A", "c", "al", 10, some 5, 0⟩
      (by decide) (by decide)).1

/-- C2 (amended): an upload whose file's declared content type does not start
with `audio/` is rejected by the multer `fileFilter` with a plain `Error`,
which bypasses the handler and reaches the generic error middleware: the
response status is 500 (not the claimed 400), and neither an object nor a
Song row is created. -/
theorem nonaudio_upload_status_500
    (st : ServerState) (req : UploadReq) (genCode newId : String) (now : Nat)
    (hf : req.hasFile = true) (hm : fileFilterAccepts req.mimetype = false) :
    processUpload st req genCode newId now = (500, st) := by
  simp [processUpload, hf, hm]

/-- Witness for C2 (amended): a concrete video upload is answered 500 with
the state unchanged. -/
theorem nonaudio_upload_status_500_witness :
    processUpload ⟨[], []⟩ ⟨true, "video/mp4", 3, "T", "A", "", "60"⟩ "c" "i" 0 =
      (500, ⟨[], []⟩) :=
  nonaudio_upload_status_500 ⟨[], []⟩ ⟨true, "video/mp4", 3, "T", "A", "", "60"⟩
    "c" "i" 0 (by decide) (by decide)

/-- C2 counterexample: the concrete upload with declared content type
"text/plain" is answered with status 500, not the claimed 400. -/
theorem nonaudio_upload_not_400 :
    (processUpload ⟨[], []⟩ ⟨true, "text/plain", 4, "T", "A", "", "60"⟩
        "c" "i" 0).1 = 500 ∧
      ¬ (processUpload ⟨[], []⟩ ⟨true, "text/plain", 4, "T", "A", "", "60"⟩
        "c" "i" 0).1 = 400 := by
  decide

/-- C1 (amended): when the Song insert fails after the binary has been
persisted — duplicate short code (400) or a save-time cast error (500) — no
Song row is added, but the just-stored object is NOT deleted: the chunk store
still contains the new object afterwards.  The code performs no rollback. -/
theorem upload_insert_failure_leaves_object
    (st : ServerState) (req : UploadReq) (genCode newId : String) (now : Nat)
    (hf : req.hasFile = true) (hm : fileFilterAccepts req.mimetype = true)
    (ht : jsTruthy req.title = true) (ha : jsTruthy req.artist = true)
    (hd : jsTruthy req.duration = true)
    (hfail : parseIntJS req.duration = none ∨
      st.catalog.any (fun s => s.songcode == genCode) = true) :
    ((processUpload st req genCode newId now).1 = 400 ∨
      (processUpload st req genCode newId now).1 = 500) ∧
    (processUpload st req genCode newId now).2.catalog = st.catalog ∧
    (processUpload st req genCode newId now).2.store = st.store ++ [req.fileId] := by
  rcases hfail with h | h
  · simp [processUpload, hf, hm, ht, ha, hd, h]
  · cases hp : parseIntJS req.duration with
    | none => simp [processUpload, hf, hm, ht, ha, hd, hp]
    | some d => simp [processUpload, hf, hm, ht, ha, hd, hp, h]

/-- Witness for C1 (amended): a concrete upload that fails on a duplicate
short code leaves the freshly stored object in the chunk store. -/
theorem upload_insert_failure_leaves_object_witness :
    (processUpload ⟨[1], [⟨"id0", "T0", "A0", "dup", "al", 9, some 1, 0⟩]⟩
        ⟨true, "audio/mpeg", 7, "T", "A", "", "180"⟩ "dup" "id1" 5).2.store =
      [1] ++ [7] :=
  (upload_insert_failure_leaves_object
      ⟨[1], [⟨"id0", "T0", "A0", "dup", "al", 9, some 1, 0⟩]⟩
      ⟨true, "audio/mpeg", 7, "T", "A", "", "180"⟩ "dup" "id1" 5
      (by decide) (by decide) (by decide) (by decide) (by decide)
      (Or.inr (by decide))).2.2

/-- C1 counterexample: for a concrete upload failing on a duplicate short
code, the request fails (400) and no Song row is added, yet the chunk store —
empty beforehand — now contains the new object 7: the claimed rollback
delete never happens. -/
theorem upload_rollback_counterexample :
    (processUpload ⟨[], [⟨"id0", "T0", "A0", "dup", "al", 9, some 1, 0⟩]⟩
        ⟨true, "audio/mpeg", 7, "T", "A", "", "180"⟩ "dup" "id1" 5).1 = 400 ∧
    (processUpload ⟨[], [⟨"id0", "T0", "A0", "dup", "al", 9, some 1, 0⟩]⟩
        ⟨true, "audio/mpeg", 7, "T", "A", "", "180"⟩ "dup" "id1" 5).2.catalog =
      [⟨"id0", "T0", "A0", "dup", "al", 9, some 1, 0⟩] ∧
    (processUpload ⟨[], [⟨"id0", "T0", "A0", "dup", "al", 9, some 1, 0⟩]⟩
        ⟨true, "audio/mpeg", 7, "T", "A", "", "180"⟩ "dup" "id1" 5).2.store = [7] := by
  decide

/-- C3 (amended): when the generated short code of a new Song collides with
an existing one, the upload fails immediately with status 400 (duplicate
code) and no Song row is added: there is no regeneration of the code and no
retry of the insert — a single collision already fails the upload. -/
theorem songcode_collision_immediate_400
    (st : ServerState) (req : UploadReq) (genCode newId : String) (now : Nat)
    (d : Int)
    (hf : req.hasFile = true) (hm : fileFilterAccepts req.mimetype = true)
    (ht : jsTruthy req.title = true) (ha : jsTruthy req.artist = true)
    (hd : jsTruthy req.duration = true)
    (hpd : parseIntJS req.duration = some d)
    (hdup : st.catalog.any (fun s => s.songcode == genCode) = true) :
    (processUpload st req genCode newId now).1 = 400 ∧
    (processUpload st req genCode newId now).2.catalog = st.catalog := by
  simp [processUpload, hf, hm, ht, ha, hd, hpd, hdup]

/-- Witness for C3 (amended): a concrete first collision is answered 400. -/
theorem songcode_collision_immediate_400_witness :
    (processUpload ⟨[2], [⟨"id0", "T0", "A0", "cc", "al", 9, some 2, 0⟩]⟩
        ⟨true, "audio/ogg", 8, "T1", "A1", "", "60"⟩ "cc" "id1" 3).1 = 400 :=
  (songcode_collision_immediate_400
      ⟨[2], [⟨"id0", "T0", "A0", "cc", "al", 9, some 2, 0⟩]⟩
      ⟨true, "audio/ogg", 8, "T1", "A1", "", "60"⟩ "cc" "id1" 3 60
      (by decide) (by decide) (by decide) (by decide) (by decide)
      (by decide) (by decide)).1

/-- C3 counterexample: on a concrete upload whose very first generated code
collides, the response is 400 and the catalog is unchanged — the single
collision alone fails the upload, with no retry. -/
theorem single_collision_fails_upload :
    (processUpload ⟨[2], [⟨"idz", "Tz", "Az", "zz", "al", 9, some 2, 0⟩]⟩
        ⟨true, "audio/wav", 6, "T1", "A1", "", "61"⟩ "zz" "id1" 3).1 = 400 ∧
    ¬ (processUpload ⟨[2], [⟨"idz", "Tz", "Az", "zz", "al", 9, some 2, 0⟩]⟩
        ⟨true, "audio/wav", 6, "T1", "A1", "", "61"⟩ "zz" "id1" 3).1 = 200 ∧
    (processUpload ⟨[2], [⟨"idz", "Tz", "Az", "zz", "al", 9, some 2, 0⟩]⟩
        ⟨true, "audio/wav", 6, "T1", "A1", "", "61"⟩ "zz" "id1" 3).2.catalog =
      [⟨"idz", "Tz", "Az", "zz", "al", 9, some 2, 0⟩] := by
  decide

/-- C7 (amended): an upload whose duration field is absent/empty is rejected
with 400 and creates no Song row, and one whose duration parses to NaN fails
at save time (500, no row); but positivity is never checked — a successful
upload stores exactly `parseInt(duration)`, so rows with zero or negative
duration are accepted (every row added by an upload carries the parsed
value, whatever its sign). -/
theorem duration_validation_behavior
    (st : ServerState) (req : UploadReq) (genCode newId : String) (now : Nat)
    (hf : req.hasFile = true) (hm : fileFilterAccepts req.mimetype = true)
    (ht : jsTruthy req.title = true) (ha : jsTruthy req.artist = true) :
    (req.duration = "" →
      (processUpload st req genCode newId now).1 = 400 ∧
      (processUpload st req genCode newId now).2.catalog = st.catalog) ∧
    (parseIntJS req.duration = none →
      ((processUpload st req genCode newId now).1 = 400 ∨
        (processUpload st req genCode newId now).1 = 500) ∧
      (processUpload st req genCode newId now).2.catalog = st.catalog) ∧
    (∀ d : Int, parseIntJS req.duration = some d →
      ∀ s ∈ (processUpload st req genCode newId now).2.catalog,
        s ∈ st.catalog ∨ s.duration = d) := by
  refine ⟨fun hde => ?_, fun hn => ?_, fun d hpd s hs => ?_⟩
  · simp [processUpload, hf, hm, ht, ha, jsTruthy, hde]
  · by_cases hde : req.duration = ""
    · constructor
      · left
        simp [processUpload, hf, hm, ht, ha, jsTruthy, hde]
      · simp [processUpload, hf, hm, ht, ha, jsTruthy, hde]
    · have hdt : jsTruthy req.duration = true := by simp [jsTruthy, hde]
      constructor
      · right
        simp [processUpload, hf, hm, ht, ha, hdt, hn]
      · simp [processUpload, hf, hm, ht, ha, hdt, hn]
  · have hdt : jsTruthy req.duration = true := by
      by_contra hcon
      have hde : req.duration = "" := by
        by_contra hne
        exact hcon (by simp [jsTruthy, hne])
      rw [hde] at hpd
      have hnone : parseIntJS "" = none := by decide
      rw [hnone] at hpd
      cases hpd
    by_cases hdup : st.catalog.any (fun s => s.songcode == genCode) = true
    · simp [processUpload, hf, hm, ht, ha, hdt, hpd, hdup] at hs
      exact Or.inl hs
    · have hdup' : st.catalog.any (fun s => s.songcode == genCode) = false := by
        simpa using hdup
      simp [processUpload, hf, hm, ht, ha, hdt, hpd, hdup'] at hs
      rcases hs with hs | hs
      · exact Or.inl hs
      · right; rw [hs]

/-- Witness for C7 (amended): a concrete upload with an empty duration field
is answered 400. -/
theorem duration_validation_behavior_witness :
    (processUpload ⟨[], []⟩ ⟨true, "audio/mpeg", 3, "T", "A", "", ""⟩
        "c" "i" 0).1 = 400 :=
  ((duration_validation_behavior ⟨[], []⟩ ⟨true, "audio/mpeg", 3, "T", "A", "", ""⟩
      "c" "i" 0 (by decide) (by decide) (by decide) (by decide)).1 rfl).1

/-- C7 counterexample: a concrete upload with duration "0" — a string that is
truthy in JS — is accepted with status 200 and creates a Song row whose
duration is 0, refuting the claim that only positive durations are ever
stored. -/
theorem nonpositive_duration_accepted :
    (processUpload ⟨[], []⟩ ⟨true, "audio/mpeg", 3, "T", "A", "", "0"⟩
        "c9" "id9" 1).1 = 200 ∧
    (processUpload ⟨[], []⟩ ⟨true, "audio/mpeg", 3, "T", "A", "", "0"⟩
        "c9" "id9" 1).2.catalog =
      [⟨"id9", "T", "A", "c9", "Unknown Album", 0, some 3, 1⟩] := by
  decide
